import Mathlib

/-!
Verification of the PPE detection demo: a Flask inference server
(app_server_x.py) and a Raspberry Pi capture/render client
(ppe_detector_rpi.py), shallowly embedded in Lean 4.

Pure fragments of the Python code become Lean functions; the external
collaborators (cv2, the YOLO model, the camera, the network) are passed
in as explicit environment values; every `sys.exit` / uncaught exception
becomes an explicit outcome constructor.
-/

namespace PPE

/-! ## Server: base64 decoding (app_server_x.py, lines 29-73)

`base64.b64decode` on a Python `str` first encodes it as ASCII; a string
with a code point at or above 128 raises a plain `ValueError` (which is
not `base64.binascii.Error`).  Otherwise the non-strict `a2b_base64`
scanner walks the characters keeping a quad position and a padding
count: characters outside the base64 alphabet are discarded, an `=` at
quad position below 2 is ignored, an `=` at quad position 2 or 3 bumps
the padding count and terminates the decode successfully once
`quad_pos + pads` reaches 4 (so position 2 needs two `=`, position 3
one), while a data character resets the padding count; at the end of
input an unfinished quad (position not a multiple of 4) raises
`base64.binascii.Error`.  We model the outcome of that decode. -/

/-- Is the character code in the base64 alphabet (A-Z, a-z, 0-9, +, /)? -/
def isB64AlphabetChar (c : Nat) : Bool :=
  (65 ≤ c && c ≤ 90) || (97 ≤ c && c ≤ 122) || (48 ≤ c && c ≤ 57) || c == 43 || c == 47

/-- Outcome of `base64.b64decode` on the request's image string. -/
inductive B64Result where
  | ok
  | binasciiError
  | valueErrorNonAscii
deriving DecidableEq, Repr

/-- Scanner state of non-strict `a2b_base64`: the current quad
position, the running padding count, and whether a complete pad
sequence (`quad_pos + pads ≥ 4`, only reachable from quad position 2
or 3) has terminated the data. -/
def b64Scan : List Nat → Nat → Nat → Bool → Nat × Bool
  | [], q, _, fin => (q, fin)
  | c :: cs, q, pads, fin =>
    if fin then b64Scan cs q pads fin
    else if c == 61 then
      (if 2 ≤ q then
        (if 4 ≤ q + (pads + 1) then b64Scan cs q (pads + 1) true
         else b64Scan cs q (pads + 1) fin)
       else b64Scan cs q pads fin)
    else if isB64AlphabetChar c then b64Scan cs ((q + 1) % 4) 0 fin
    else b64Scan cs q pads fin

/-- Outcome of `base64.b64decode(image_b64)` where `chars` are the code
points of the request's image string. -/
def pyB64DecodeStatus (chars : List Nat) : B64Result :=
  if chars.any (fun c => 128 ≤ c) then .valueErrorNonAscii
  else if (b64Scan chars 0 0 false).2 then .ok
  else if (b64Scan chars 0 0 false).1 % 4 == 0 then .ok
  else .binasciiError

/-! ## Server: the /predict route (app_server_x.py, lines 22-73) -/

/-- An abstract decoded bitmap. -/
structure Image where
  id : Nat
deriving DecidableEq, Repr

/-- One prediction object produced by the server (lines 57-64). -/
structure Prediction where
  xmin : Int
  ymin : Int
  xmax : Int
  ymax : Int
  class_name : String
  confidence : ℚ
deriving DecidableEq, Repr

/-- The server's external collaborators: `imdecode` models
`cv2.imdecode(np.frombuffer(base64-decoded bytes))` as a function of the
image string (the decode is deterministic in it), returning `none` for an
undecodable bitmap; `infer` models the YOLO model call plus result
extraction, `Except.error` modelling a raised exception. -/
structure ServerEnv where
  imdecode : List Nat → Option Image
  infer : Image → Except String (List Prediction)

/-- The JSON value under the image key: a string (given by its code
points) or any non-string JSON value. -/
inductive JsonImageVal where
  | str (chars : List Nat)
  | nonString
deriving DecidableEq, Repr

/-- A request to the /predict route. -/
structure PredictRequest where
  is_json : Bool
  hasImageKey : Bool
  image : JsonImageVal
deriving DecidableEq, Repr

/-- A well-formed JSON request carrying a string under the image key. -/
def strReq (chars : List Nat) : PredictRequest :=
  { is_json := true, hasImageKey := true, image := JsonImageVal.str chars }

/-- The response the route returns: HTTP status and the JSON body fields. -/
structure HttpResponse where
  status : Nat
  errorField : Option String
  predictionsField : Option (List Prediction)
deriving DecidableEq, Repr

/-- The /predict handler (lines 22-73).  A non-string image value makes
`b64decode` raise `TypeError`; a non-ASCII string makes it raise a plain
`ValueError`; neither is `base64.binascii.Error`, so both fall to the
final `except Exception` handler and return 500. -/
def predict (env : ServerEnv) (req : PredictRequest) : HttpResponse :=
  if ¬ req.is_json ∨ ¬ req.hasImageKey then
    { status := 400, errorField := some "Permintaan harus dalam format JSON dan menyertakan kunci image.",
      predictionsField := none }
  else
    match req.image with
    | .nonString =>
        { status := 500, errorField := some "Kesalahan internal server: TypeError",
          predictionsField := none }
    | .str chars =>
        match pyB64DecodeStatus chars with
        | .valueErrorNonAscii =>
            { status := 500, errorField := some "Kesalahan internal server: ValueError",
              predictionsField := none }
        | .binasciiError =>
            { status := 400, errorField := some "Format string base64 gambar tidak valid.",
              predictionsField := none }
        | .ok =>
            match env.imdecode chars with
            | none =>
                { status := 400, errorField := some "Gagal mendekode gambar.",
                  predictionsField := none }
            | some img =>
                match env.infer img with
                | .error e =>
                    { status := 500, errorField := some ("Kesalahan internal server: " ++ e),
                      predictionsField := none }
                | .ok preds =>
                    { status := 200, errorField := none, predictionsField := some preds }

/-- A fixed trivial environment used for concrete evaluations. -/
def trivialServerEnv : ServerEnv :=
  { imdecode := fun _ => none, infer := fun _ => .ok [] }

/-! ## Server startup (app_server_x.py, lines 15-20) -/

/-- Result of `YOLO(MODEL_PATH)` at startup: loaded labels, or a raised
exception message. -/
inductive ModelLoadResult where
  | ok (labels : List String)
  | raised (msg : String)
deriving DecidableEq, Repr

/-- The state the server process is in once the module body has run. -/
structure ServerStartup where
  startupLog : List String
  accepting : Bool
  loadedLabels : Option (List String)
deriving DecidableEq, Repr

/-- Lines 15-20: the model load is wrapped in try/except; on failure the
exception is printed and execution continues to `app.run`, so the server
accepts requests either way. -/
def serverStartup : ModelLoadResult → ServerStartup
  | .ok labels =>
      { startupLog := ["[SERVER STARTUP] Model YOLO berhasil dimuat."],
        accepting := true, loadedLabels := some labels }
  | .raised m =>
      { startupLog := ["[SERVER STARTUP ERROR] Gagal memuat model YOLO: " ++ m],
        accepting := true, loadedLabels := none }

/-! ## Client: the frame-rate rolling buffer (ppe_detector_rpi.py, lines 258-270) -/

/-- `fps_avg_len = 200` (line 143). -/
def fps_avg_len : Nat := 200

/-- Lines 263-267: if the buffer is at capacity, `pop(0)` the oldest
sample, then `append` the new one; otherwise just `append`. -/
def frameRateBufferUpdate (buf : List ℚ) (x : ℚ) : List ℚ :=
  if fps_avg_len ≤ buf.length then buf.drop 1 ++ [x] else buf ++ [x]

/-- `np.mean` over the buffer (line 270). -/
def listMean (l : List ℚ) : ℚ := l.sum / l.length

/-! ## Client: Python string helpers

Kernel-friendly re-implementations, over `List Char`, of the exact
Python string operations the client uses: `str.startswith`, slicing
`s[n:]`, `str.split(sep)` for a one-character separator, `int(s)`, and
`os.path.splitext(p)[1]`. -/

/-- Is the first list a prefix of the second? (`str.startswith`). -/
def startsWithChars : List Char → List Char → Bool
  | [], _ => true
  | _ :: _, [] => false
  | c :: cs, d :: ds => c == d && startsWithChars cs ds

/-- `s.startswith(pre)`. -/
def pyStartsWith (s pre : String) : Bool := startsWithChars pre.data s.data

/-- The Python slice `s[n:]`. -/
def pySliceFrom (s : String) (n : Nat) : String := String.mk (s.data.drop n)

/-- `s.split(c)` for a single-character separator. -/
def splitOnChar (c : Char) : List Char → List (List Char)
  | [] => [[]]
  | d :: ds =>
    match splitOnChar c ds with
    | [] => [[d]]
    | g :: gs => if d == c then [] :: g :: gs else (d :: g) :: gs

/-- The ASCII characters `int(s)` strips from both ends: tab, newline,
vertical tab, form feed, carriage return, space. -/
def isPySpace (c : Char) : Bool :=
  c.toNat == 9 || c.toNat == 10 || c.toNat == 11 || c.toNat == 12 ||
    c.toNat == 13 || c.toNat == 32

/-- Continuation of the decimal-digit grammar of `int(s)`: digits with
single underscores allowed only between digits (PEP 515). -/
def pyDigitsTail : List Char → Bool
  | [] => true
  | c :: cs =>
    if c.isDigit then pyDigitsTail cs
    else if c == '_' then
      (match cs with
       | [] => false
       | d :: ds => d.isDigit && pyDigitsTail ds)
    else false

/-- The digit part of `int(s)`: nonempty, starts with a digit, single
underscores only between digits. -/
def pyDigitsOk : List Char → Bool
  | [] => false
  | c :: cs => c.isDigit && pyDigitsTail cs

/-- `int(s)` on a decimal string: optional surrounding whitespace, an
optional single sign, then one or more ASCII digits with single
underscores allowed between digits.  `none` models a raised
`ValueError`.  This is faithful to CPython for ASCII strings; it does
not model Unicode decimal digits or Unicode whitespace, so theorems
relying on `none` meaning a raised `ValueError` restrict their inputs
to ASCII. -/
def pyIntChars (l : List Char) : Option Int :=
  let l1 := ((l.dropWhile isPySpace).reverse.dropWhile isPySpace).reverse
  match l1 with
  | [] => none
  | c :: cs =>
    let signed := c == '-'
    let ds := if c == '-' ∨ c == '+' then cs else c :: cs
    if pyDigitsOk ds then
      let n : Nat := (ds.filter (fun d => d != '_')).foldl
        (fun acc d => acc * 10 + (d.toNat - 48)) 0
      some (if signed then -(n : Int) else (n : Int))
    else none

/-- `int(s)`. -/
def pyInt (s : String) : Option Int := pyIntChars s.data

/-- The index of the last occurrence of `c` (`str.rfind` without the -1). -/
def lastIdxOf (c : Char) : List Char → Option Nat
  | [] => none
  | x :: xs =>
    match lastIdxOf c xs with
    | some i => some (i + 1)
    | none => if x == c then some 0 else none

/-- `p.rfind(c)`: last index of `c`, or -1 when absent. -/
def pyRFind (c : Char) (l : List Char) : Int :=
  match lastIdxOf c l with
  | none => -1
  | some i => (i : Int)

/-- `os.path.splitext(p)[1]`: the extension starting at the last dot,
provided the dot lies after the last path separator and the base name
does not consist of leading dots up to it. -/
def splitextExt (p : String) : String :=
  let l := p.data
  let dotIndex := pyRFind '.' l
  let sepIndex := pyRFind '/' l
  if sepIndex < dotIndex then
    let fi := (sepIndex + 1).toNat
    let di := dotIndex.toNat
    if ((l.drop fi).take (di - fi)).any (fun ch => ch != '.') then
      String.mk (l.drop di)
    else ""
  else ""

/-! ## Client: source classification (ppe_detector_rpi.py, lines 55-80) -/

/-- `img_ext_list` (line 56). -/
def img_ext_list : List String :=
  [".jpg", ".JPG", ".jpeg", ".JPEG", ".png", ".PNG", ".bmp", ".BMP"]

/-- `vid_ext_list` (line 57). -/
def vid_ext_list : List String :=
  [".avi", ".mov", ".mp4", ".mkv", ".wmv"]

/-- The resolved `source_type` variants. -/
inductive SourceType where
  | image | folder | video | usb | rtsp | picamera
deriving DecidableEq, Repr

/-- How classification can end short of a source type.  The first two
print a message and call `sys.exit(0)`; the last is the uncaught
`ValueError` raised by `int` on a non-integer suffix after the `usb` or
`picamera` prefix, which crashes the process with a traceback. -/
inductive ClassifyError where
  | unsupportedExt (ext : String)
  | invalidSource
  | uncaughtValueError
deriving DecidableEq, Repr

/-- The classification result, with the parsed camera index when one
applies (`usb_idx` at line 72, `picam_idx` at line 75). -/
structure SourceInfo where
  source_type : SourceType
  usb_idx : Option Int := none
  picam_idx : Option Int := none
deriving DecidableEq, Repr

/-- The filesystem facts classification consults: `os.path.isdir`,
`os.path.isfile`, and the directory listing `glob.glob` produces. -/
structure FileSys where
  isDir : String → Bool
  isFile : String → Bool
  listDir : String → List String

/-- Lines 59-80: the source-type classification, applied in order:
existing directory, existing file by extension, `usb` prefix, `picamera`
prefix, `rtsp://` prefix, otherwise the invalid-source exit. -/
def classifySource (fs : FileSys) (img_source : String) :
    Except ClassifyError SourceInfo :=
  if fs.isDir img_source then .ok { source_type := .folder }
  else if fs.isFile img_source then
    (let ext := splitextExt img_source
     if ext ∈ img_ext_list then .ok { source_type := .image }
     else if ext ∈ vid_ext_list then .ok { source_type := .video }
     else .error (.unsupportedExt ext))
  else if pyStartsWith img_source "usb" then
    (match pyInt (pySliceFrom img_source 3) with
     | some i => .ok { source_type := .usb, usb_idx := some i }
     | none => .error .uncaughtValueError)
  else if pyStartsWith img_source "picamera" then
    (match pyInt (pySliceFrom img_source 8) with
     | some i => .ok { source_type := .picamera, picam_idx := some i }
     | none => .error .uncaughtValueError)
  else if pyStartsWith img_source "rtsp://" then .ok { source_type := .rtsp }
  else .error .invalidSource

/-- A filesystem on which no path exists. -/
def emptyFs : FileSys :=
  { isDir := fun _ => false, isFile := fun _ => false, listDir := fun _ => [] }

/-! ## Client: CLI validation and startup (ppe_detector_rpi.py, lines 82-138) -/

/-- Outcome of parsing `--resolution` (lines 84-90).  `int` on the first
split part failing raises `ValueError`, which is caught and exits;
a missing second part raises `IndexError`, which nothing catches. -/
inductive ResParse where
  | ok (w h : Int)
  | exitValueError
  | crashIndexError
deriving DecidableEq, Repr

/-- Lines 86-90: `resW, resH = int(user_res.split('x')[0]),
int(user_res.split('x')[1])` inside `try/except ValueError`. -/
def parseResolution (user_res : String) : ResParse :=
  match splitOnChar 'x' user_res.data with
  | [] => .crashIndexError
  | p0 :: rest =>
    match pyIntChars p0 with
    | none => .exitValueError
    | some w =>
      match rest with
      | [] => .crashIndexError
      | p1 :: _ =>
        match pyIntChars p1 with
        | none => .exitValueError
        | some h => .ok w h

/-- Python truthiness of `user_res` (lines 84 and 97): `None` and the
empty string are falsy. -/
def resTruthy : Option String → Bool
  | none => false
  | some r => !(r == "")

/-- The parsed CLI arguments (lines 42-46). -/
structure Args where
  server_url : String
  source : String
  thresh : ℚ
  resolution : Option String
  record : Bool
deriving DecidableEq, Repr

/-- The configuration the main loop runs with once startup succeeds. -/
structure Config where
  source_type : SourceType
  min_thresh : ℚ
  resize : Bool
  resW : Int := 0
  resH : Int := 0
  record : Bool
  imgs_list : List String := []
deriving DecidableEq, Repr

/-- How the pre-loop code can end: a `sys.exit` before the loop (with
whether a diagnostic was printed and the exit status passed), an uncaught
exception, or entering the loop with a configuration. -/
inductive InitOutcome where
  | exitBeforeLoop (diagnostic : Bool) (exitCode : Nat)
  | crash
  | proceed (cfg : Config)
deriving DecidableEq, Repr

/-- The device environment at startup: whether `cv2.VideoCapture(...)`
opens. -/
structure DeviceEnv where
  capOpens : Bool
deriving DecidableEq, Repr

/-- Lines 93-138 (after source classification and resolution parsing):
record validation, then source loading.  The loop is entered only by
`proceed`. -/
def initAfterRes (fs : FileSys) (dev : DeviceEnv) (args : Args)
    (info : SourceInfo) (resize : Bool) (w h : Int) : InitOutcome :=
  if args.record ∧
      info.source_type ∉ [SourceType.video, SourceType.usb,
        SourceType.rtsp, SourceType.picamera] then
    .exitBeforeLoop true 0
  else if args.record ∧ resTruthy args.resolution = false then
    .exitBeforeLoop true 0
  else
    match info.source_type with
    | .image =>
      .proceed { source_type := .image, min_thresh := args.thresh,
                 resize := resize, resW := w, resH := h,
                 record := args.record, imgs_list := [args.source] }
    | .folder =>
      .proceed { source_type := .folder, min_thresh := args.thresh,
                 resize := resize, resW := w, resH := h,
                 record := args.record,
                 imgs_list := (fs.listDir args.source).filter
                   (fun f => splitextExt f ∈ img_ext_list) }
    | .video =>
      if dev.capOpens then
        .proceed { source_type := .video, min_thresh := args.thresh,
                   resize := resize, resW := w, resH := h,
                   record := args.record }
      else .exitBeforeLoop true 0
    | .usb =>
      if dev.capOpens then
        .proceed { source_type := .usb, min_thresh := args.thresh,
                   resize := resize, resW := w, resH := h,
                   record := args.record }
      else .exitBeforeLoop true 0
    | .rtsp =>
      if dev.capOpens then
        .proceed { source_type := .rtsp, min_thresh := args.thresh,
                   resize := resize, resW := w, resH := h,
                   record := args.record }
      else .exitBeforeLoop true 0
    | .picamera =>
      if resTruthy args.resolution = false then .exitBeforeLoop true 0
      else
        .proceed { source_type := .picamera, min_thresh := args.thresh,
                   resize := resize, resW := w, resH := h,
                   record := args.record }

/-- The whole pre-loop startup (lines 55-138): classify the source,
parse the display resolution when one is given, validate recording, load
the source.  Every error exit in this stretch is `sys.exit(0)`. -/
def clientInit (fs : FileSys) (dev : DeviceEnv) (args : Args) : InitOutcome :=
  match classifySource fs args.source with
  | .error .uncaughtValueError => .crash
  | .error _ => .exitBeforeLoop true 0
  | .ok info =>
    if resTruthy args.resolution then
      match parseResolution (args.resolution.getD "") with
      | .exitValueError => .exitBeforeLoop true 0
      | .crashIndexError => .crash
      | .ok w h => initAfterRes fs dev args info true w h
    else initAfterRes fs dev args info false 0 0

/-! ## Client: the inference request and the detection JSON
(ppe_detector_rpi.py, lines 185-213) -/

/-- A detection object in the response JSON; `none` models a missing
field. -/
structure DetJson where
  xmin : Option Int := none
  ymin : Option Int := none
  xmax : Option Int := none
  ymax : Option Int := none
  class_name : Option String := none
  confidence : Option ℚ := none
deriving DecidableEq, Repr

/-- A detection after the `.get(field, default)` extraction of lines
208-213. -/
structure ParsedDet where
  xmin : Int
  ymin : Int
  xmax : Int
  ymax : Int
  classname : String
  conf : ℚ
deriving DecidableEq, Repr

/-- Lines 208-213: each field through `detection.get` with its default. -/
def parseDet (d : DetJson) : ParsedDet :=
  { xmin := d.xmin.getD 0, ymin := d.ymin.getD 0,
    xmax := d.xmax.getD 0, ymax := d.ymax.getD 0,
    classname := d.class_name.getD "unknown",
    conf := d.confidence.getD 0 }

/-- How one inference request can end.  `success` is a 200 response with
parsed JSON, whose `predictions` key may be absent (`none`); every other
constructor is one of the exception handlers at lines 194-203. -/
inductive RequestOutcome where
  | success (predictionsField : Option (List DetJson))
  | timeout
  | connectionError (msg : String)
  | httpError (statusCode : Nat) (text : String)
  | jsonDecodeError
  | otherException (msg : String)
deriving DecidableEq, Repr

/-- Did the request fail (any of the except branches)? -/
def RequestOutcome.isFailure : RequestOutcome → Bool
  | .success _ => false
  | _ => true

/-- Lines 185-203: `predictions = []`, then the try/except around the
POST; on success `predictions = results_data.get('predictions', [])`,
and each handler prints one message and leaves the empty list. -/
def fetchPredictions : RequestOutcome → List DetJson × List String
  | .success pf => (pf.getD [], [])
  | .timeout => ([], ["Permintaan server timed out."])
  | .connectionError m => ([], ["Kesalahan koneksi ke server: " ++ m])
  | .httpError c t =>
      ([], ["Kesalahan HTTP dari server: " ++ toString c ++ " - " ++ t])
  | .jsonDecodeError => ([], ["Gagal mendekode respons JSON dari server."])
  | .otherException m =>
      ([], ["Terjadi kesalahan tak terduga selama komunikasi server: " ++ m])

/-! ## Client: drawing the detections (ppe_detector_rpi.py, lines 205-229) -/

/-- `bbox_colors` (lines 50-53): the fixed 20-entry palette. -/
def bbox_colors : List (Nat × Nat × Nat) :=
  [(164, 120, 87), (68, 148, 228), (93, 97, 209), (178, 182, 133),
   (88, 159, 106), (96, 202, 231), (159, 124, 168), (169, 162, 241),
   (98, 118, 150), (172, 176, 184), (255, 0, 0), (0, 255, 0), (0, 0, 255),
   (255, 255, 0), (0, 255, 255), (255, 0, 255), (192, 192, 192),
   (128, 128, 128), (128, 0, 0), (128, 128, 0)]

/-- Line 219: `color_idx = hash(classname) % len(bbox_colors)`.  The
per-process string hash is passed in; Python `%` with a positive modulus
is the sign-of-divisor remainder, which `Int.emod` matches. -/
def colorIdx (pyHash : String → Int) (classname : String) : Nat :=
  ((pyHash classname) % (bbox_colors.length : Int)).toNat

/-- Python `int(q)`: truncation toward zero. -/
def pyIntTrunc (q : ℚ) : Int := if q < 0 then -(Int.floor (-q)) else Int.floor q

/-- One box as drawn on the display frame (lines 221-227). -/
structure DrawnBox where
  xmin : Int
  ymin : Int
  xmax : Int
  ymax : Int
  color : Nat × Nat × Nat
  label : String
deriving DecidableEq, Repr

/-- The box drawn for one detection object. -/
def mkDrawnBox (pyHash : String → Int) (d : DetJson) : DrawnBox :=
  let p := parseDet d
  { xmin := p.xmin, ymin := p.ymin, xmax := p.xmax, ymax := p.ymax,
    color := bbox_colors.getD (colorIdx pyHash p.classname) (0, 0, 0),
    label := p.classname ++ ": " ++ toString (pyIntTrunc (p.conf * 100)) ++ "%" }

/-- One pass of the detection loop body (lines 207-229): draw the box
and bump `object_count` only when `conf > min_thresh`. -/
def drawStep (pyHash : String → Int) (min_thresh : ℚ)
    (acc : List DrawnBox × Nat) (d : DetJson) : List DrawnBox × Nat :=
  if min_thresh < (parseDet d).conf then
    (acc.1 ++ [mkDrawnBox pyHash d], acc.2 + 1)
  else acc

/-- The whole detection loop (lines 205-229), starting from
`object_count = 0` and an unmarked frame. -/
def drawDetections (pyHash : String → Int) (min_thresh : ℚ)
    (dets : List DetJson) : List DrawnBox × Nat :=
  dets.foldl (drawStep pyHash min_thresh) ([], 0)

/-! ## Client: one iteration of the main loop
(ppe_detector_rpi.py, lines 147-270) -/

/-- Did frame acquisition produce a frame this iteration?  `fail` covers
`cv2.imread` returning None, `cap.read()` reporting `ret == False` or a
None frame, and a None Picamera frame. -/
inductive FrameAcq where
  | ok
  | fail
deriving DecidableEq, Repr

/-- The per-iteration external inputs: the acquisition outcome, the
request outcome, the `cv2.waitKey` result, and the measured iteration
duration `t_stop - t_start`. -/
structure IterEnv where
  acq : FrameAcq
  request : RequestOutcome
  key : Int
  dur : ℚ
deriving DecidableEq, Repr

/-- The loop-carried mutable state (lines 140-144). -/
structure LoopState where
  img_count : Nat := 0
  frame_rate_buffer : List ℚ := []
  avg_frame_rate : ℚ := 0
deriving DecidableEq, Repr

/-- What happened to the display frame this iteration. -/
structure RenderInfo where
  boxes : List DrawnBox
  object_count : Nat
  resized : Bool
  fpsAnnotated : Bool
  countAnnotated : Bool
  shown : Bool
  recorded : Bool
  snapshotSaved : Bool
  logs : List String
deriving DecidableEq, Repr

/-- How one iteration ends: `exitInLoop` is a `sys.exit` from inside the
loop body (the process ends there; the cleanup block below the loop never
runs), `breakLoop` is a `break` (control falls through to the cleanup
block), `next` continues the loop. -/
inductive IterResult where
  | exitInLoop (code : Nat) (logs : List String)
  | breakLoop (st : LoopState) (render : Option RenderInfo)
  | next (st : LoopState) (render : Option RenderInfo)
deriving DecidableEq, Repr

/-- Line 236: the FPS text is drawn only for these source types. -/
def fpsAnnotatedFor (t : SourceType) : Bool :=
  t == SourceType.video || t == SourceType.usb ||
    t == SourceType.picamera || t == SourceType.rtsp

/-- Lines 176-270: everything after a frame was acquired — encode, send,
parse/except, draw, resize, annotate, show, record, keys, FPS buffer.
`st` already carries this iteration's `img_count` update. -/
def processFrame (pyHash : String → Int) (cfg : Config) (st : LoopState)
    (env : IterEnv) : IterResult :=
  let fetched := fetchPredictions env.request
  let drawn := drawDetections pyHash cfg.min_thresh fetched.1
  let render : RenderInfo :=
    { boxes := drawn.1, object_count := drawn.2, resized := cfg.resize,
      fpsAnnotated := fpsAnnotatedFor cfg.source_type,
      countAnnotated := true, shown := true, recorded := cfg.record,
      snapshotSaved := false, logs := fetched.2 }
  if env.key = 113 ∨ env.key = 81 then .breakLoop st (some render)
  else
    let render :=
      if env.key = 112 ∨ env.key = 80 then { render with snapshotSaved := true }
      else render
    let buf := frameRateBufferUpdate st.frame_rate_buffer (1 / env.dur)
    .next { st with frame_rate_buffer := buf, avg_frame_rate := listMean buf }
      (some render)

/-- One iteration of `while True` (lines 147-270).  For image/folder
sources, exhaustion of `imgs_list` is `sys.exit(0)` at line 154 — inside
the loop; an unreadable frame from a live or video source is the `break`
at lines 163/170; an unreadable image file is the `continue` at line 173
(after `img_count` was already incremented). -/
def loopIter (pyHash : String → Int) (cfg : Config) (st : LoopState)
    (env : IterEnv) : IterResult :=
  if cfg.source_type = .image ∨ cfg.source_type = .folder then
    (if cfg.imgs_list.length ≤ st.img_count then
      .exitInLoop 0 ["Semua gambar telah diproses. Keluar dari program."]
    else
      let st1 := { st with img_count := st.img_count + 1 }
      match env.acq with
      | .fail => .next st1 none
      | .ok => processFrame pyHash cfg st1 env)
  else
    (match env.acq with
     | .fail => .breakLoop st none
     | .ok => processFrame pyHash cfg st env)

/-- Did this iteration actually acquire a frame (so that the request and
render happen)? -/
def frameAcquired (cfg : Config) (st : LoopState) (env : IterEnv) : Bool :=
  env.acq == .ok &&
    (if cfg.source_type = .image ∨ cfg.source_type = .folder then
      decide (st.img_count < cfg.imgs_list.length)
    else true)

/-- The rendered frame of an iteration, when there is one. -/
def iterRender : IterResult → Option RenderInfo
  | .exitInLoop _ _ => none
  | .breakLoop _ r => r
  | .next _ r => r

/-! ## Client: running the loop to termination and the cleanup block
(ppe_detector_rpi.py, lines 147-284) -/

/-- How a finite run of the loop ends. -/
inductive RunResult where
  | exitedInLoop (code : Nat) (st : LoopState)
  | brokeOut (st : LoopState)
  | fuelOut (st : LoopState)
deriving DecidableEq, Repr

/-- Run the loop over a finite stream of per-iteration environments
(`fuelOut` is the artifact of the stream running dry while the loop would
continue). -/
def runLoop (pyHash : String → Int) (cfg : Config) :
    LoopState → List IterEnv → RunResult
  | st, [] => .fuelOut st
  | st, e :: es =>
    match loopIter pyHash cfg st e with
    | .exitInLoop c _ => .exitedInLoop c st
    | .breakLoop st1 _ => .brokeOut st1
    | .next st1 _ => runLoop pyHash cfg st1 es

/-- What the cleanup block does. -/
structure CleanupInfo where
  printedAvgFps : Bool
  capReleased : Bool
  picamStopped : Bool
  recorderReleased : Bool
  windowsDestroyed : Bool
deriving DecidableEq, Repr

/-- The cleanup block (lines 273-284): print the average FPS, release
the capture handle when one was opened and is open, stop the Picamera,
release the recorder when recording and it is open, destroy all
windows.  `capOpen`/`recOpen` model `cap.isOpened()` and
`recorder.isOpened()`. -/
def cleanupBlock (cfg : Config) (capOpen recOpen : Bool) : CleanupInfo :=
  { printedAvgFps := true,
    capReleased := (cfg.source_type == .video || cfg.source_type == .usb ||
      cfg.source_type == .rtsp) && capOpen,
    picamStopped := cfg.source_type == .picamera,
    recorderReleased := cfg.record && recOpen,
    windowsDestroyed := true }

/-- How the process as a whole shuts down after the loop: a `break`
falls through to the cleanup block; a `sys.exit` inside the loop ends
the process with the cleanup block never executed. -/
inductive ShutdownResult where
  | stillRunning
  | exitedNoCleanup (code : Nat)
  | cleanedUp (info : CleanupInfo)
deriving DecidableEq, Repr

/-- Run the loop and apply the post-loop control flow. -/
def loopShutdown (pyHash : String → Int) (cfg : Config)
    (capOpen recOpen : Bool) (st : LoopState) (envs : List IterEnv) :
    ShutdownResult :=
  match runLoop pyHash cfg st envs with
  | .exitedInLoop code _ => .exitedNoCleanup code
  | .brokeOut _ => .cleanedUp (cleanupBlock cfg capOpen recOpen)
  | .fuelOut _ => .stillRunning

/-! ## Concrete fixtures used for evaluations -/

/-- A device environment whose capture opens. -/
def devOk : DeviceEnv := { capOpens := true }

/-- A fixed per-run string hash. -/
def zeroHash : String → Int := fun _ => 0

/-- `--record` given, `--resolution` not given, valid usb source. -/
def recordNoResArgs : Args :=
  { server_url := "http://vps/predict", source := "usb0", thresh := mkRat 1 2,
    resolution := none, record := true }

/-- A source string matching no classification rule. -/
def invalidSourceArgs : Args :=
  { server_url := "http://vps/predict", source := "nosuchsource",
    thresh := mkRat 1 2, resolution := none, record := false }

/-- A folder-source configuration whose image list is empty. -/
def folderCfg : Config :=
  { source_type := .folder, min_thresh := mkRat 1 2, resize := false,
    record := false, imgs_list := [] }

/-- A single-image-source configuration. -/
def imageCfg : Config :=
  { source_type := .image, min_thresh := mkRat 1 2, resize := false,
    record := false, imgs_list := ["test.jpg"] }

/-- The initial loop state (lines 140-144). -/
def st0 : LoopState := {}

/-- A detection whose confidence 0.3 is below the default threshold. -/
def lowConfDet : DetJson := { confidence := some (mkRat 3 10) }

/-- A successful iteration: frame acquired, one low-confidence
detection returned, no recognized key. -/
def stdEnv : IterEnv :=
  { acq := .ok, request := .success (some [lowConfDet]), key := 110, dur := 1 }

/-- An iteration whose inference request times out. -/
def failEnv : IterEnv :=
  { acq := .ok, request := .timeout, key := 110, dur := 1 }

/-- An iteration in which the user presses the quit key. -/
def quitEnv : IterEnv :=
  { acq := .ok, request := .success (some []), key := 113, dur := 1 }

/-- The render `stdEnv` produces under `imageCfg`: the one low-confidence
detection is not drawn and the count stays 0. -/
def stdRender : RenderInfo :=
  { boxes := [], object_count := 0, resized := false, fpsAnnotated := false,
    countAnnotated := true, shown := true, recorded := false,
    snapshotSaved := false, logs := [] }

/-- The loop state after one `stdEnv` iteration under `imageCfg`. -/
def stdNextState : LoopState :=
  { img_count := 1, frame_rate_buffer := [(1 : ℚ) / 1],
    avg_frame_rate := listMean [(1 : ℚ) / 1] }

theorem frameRateBufferUpdate_length (buf : List ℚ) (x : ℚ) :
    (frameRateBufferUpdate buf x).length =
      if fps_avg_len ≤ buf.length then buf.length else buf.length + 1 := by
  unfold frameRateBufferUpdate
  split
  · next h =>
    have h1 : 1 ≤ buf.length := le_trans (by norm_num [fps_avg_len]) h
    simp [List.length_drop]
    omega
  · simp

/-- Folding buffer updates from a buffer within capacity keeps the most
recent `fps_avg_len` samples: the result is a suffix of the full sample
stream. -/
theorem frameRateBuffer_foldl (l : List ℚ) :
    ∀ b : List ℚ, b.length ≤ fps_avg_len →
      List.foldl frameRateBufferUpdate b l =
        (b ++ l).drop (b.length + l.length - fps_avg_len) := by
  induction l with
  | nil =>
    intro b hb
    simp [Nat.sub_eq_zero_of_le hb]
  | cons x l ih =>
    intro b hb
    rw [List.foldl_cons]
    by_cases h : fps_avg_len ≤ b.length
    · have hbl : b.length = fps_avg_len := le_antisymm hb h
      have h1 : 1 ≤ b.length := by rw [hbl]; norm_num [fps_avg_len]
      have hux : frameRateBufferUpdate b x = b.drop 1 ++ [x] := by
        unfold frameRateBufferUpdate; rw [if_pos h]
      have hulen : (frameRateBufferUpdate b x).length = fps_avg_len := by
        rw [frameRateBufferUpdate_length, if_pos h, hbl]
      rw [ih _ (le_of_eq hulen)]
      rw [hulen, hux]
      have hassoc : (b.drop 1 ++ [x]) ++ l = b.drop 1 ++ (x :: l) := by
        rw [List.append_assoc]; rfl
      rw [hassoc]
      have hdrop1 : b.drop 1 ++ (x :: l) = (b ++ (x :: l)).drop 1 := by
        rw [List.drop_append_eq_append_drop]
        have : 1 - b.length = 0 := by omega
        rw [this]
        simp
      rw [hdrop1, List.drop_drop]
      have hidx : b.length + (x :: l).length - fps_avg_len = l.length + 1 := by
        simp only [List.length_cons]
        omega
      rw [hidx]
      have hidx2 : 1 + (fps_avg_len + l.length - fps_avg_len) = l.length + 1 := by
        omega
      rw [hidx2]
    · have hux : frameRateBufferUpdate b x = b ++ [x] := by
        unfold frameRateBufferUpdate; rw [if_neg h]
      have hulen : (frameRateBufferUpdate b x).length = b.length + 1 := by
        rw [frameRateBufferUpdate_length, if_neg h]
      rw [ih _ (by omega)]
      rw [hulen, hux]
      have hassoc : (b ++ [x]) ++ l = b ++ (x :: l) := by
        rw [List.append_assoc]; rfl
      rw [hassoc]
      have hidx : b.length + (x :: l).length - fps_avg_len =
          b.length + 1 + l.length - fps_avg_len := by
        simp only [List.length_cons]
        omega
      rw [hidx]

/-- A decode status of `valueErrorNonAscii` means some character of the
image string is outside ASCII. -/
theorem pyB64DecodeStatus_nonAscii (chars : List Nat)
    (h : pyB64DecodeStatus chars = B64Result.valueErrorNonAscii) :
    ∃ c ∈ chars, 128 ≤ c := by
  unfold pyB64DecodeStatus at h
  by_cases hany : chars.any (fun c => decide (128 ≤ c)) = true
  · simpa using hany
  · rw [Bool.not_eq_true] at hany
    rw [if_neg (by simp [hany])] at h
    split at h
    · exact absurd h (by simp)
    · split at h
      · exact absurd h (by simp)
      · exact absurd h (by simp)

/-- C1 counterexample: the request whose image value is the one-character
string with code point 233 carries an invalid base64 payload (its decode
does not succeed), yet the service answers with HTTP 500 — a server
error, not a 400-class client error.  The decode raises a plain
`ValueError` (from the ASCII re-encoding step), which the handler for
`base64.binascii.Error` does not catch, so the generic
`except Exception` branch replies 500. -/
theorem predict_nonascii_b64_500_counterexample :
    pyB64DecodeStatus [233] ≠ B64Result.ok
    ∧ (predict trivialServerEnv (strReq [233])).status = 500 := by
  constructor
  · decide
  · rfl

/-- C1 amended: for every request whose image value is an ASCII string
that fails base64 decoding, the service returns status 400 with an error
message field (never a 500-class error); invalid payloads with non-ASCII
characters are the exception and return 500. -/
theorem predict_ascii_invalid_b64_400 (env : ServerEnv) (chars : List Nat)
    (hascii : ∀ c ∈ chars, c < 128)
    (hbad : pyB64DecodeStatus chars ≠ B64Result.ok) :
    (predict env (strReq chars)).status = 400
    ∧ (predict env (strReq chars)).errorField ≠ none := by
  have hstat : pyB64DecodeStatus chars = B64Result.binasciiError := by
    match hq : pyB64DecodeStatus chars with
    | .ok => exact absurd hq hbad
    | .binasciiError => rfl
    | .valueErrorNonAscii =>
        obtain ⟨c, hc, h128⟩ := pyB64DecodeStatus_nonAscii chars hq
        exact absurd h128 (Nat.not_le.mpr (hascii c hc))
  constructor
  · simp [predict, strReq, hstat]
  · simp [predict, strReq, hstat]

/-- Witness for `predict_ascii_invalid_b64_400` at the ASCII payload
"AA=": a lone pad after a two-character quad leaves `quad_pos + pads`
below 4, so `a2b_base64` raises Incorrect padding and the service
answers 400. -/
theorem predict_ascii_invalid_b64_400_witness :
    (predict trivialServerEnv (strReq [65, 65, 61])).status = 400
    ∧ (predict trivialServerEnv (strReq [65, 65, 61])).errorField ≠ none :=
  predict_ascii_invalid_b64_400 trivialServerEnv [65, 65, 61]
    (by decide) (by decide)

/-- C8: if the model load raises at startup, the failure is logged and
the service still reaches `app.run` and accepts requests, in a degraded
state with no loaded labels, rather than refusing to start. -/
theorem server_degraded_start (msg : String) :
    (serverStartup (ModelLoadResult.raised msg)).accepting = true
    ∧ (serverStartup (ModelLoadResult.raised msg)).startupLog ≠ []
    ∧ (serverStartup (ModelLoadResult.raised msg)).loadedLabels = none := by
  refine ⟨rfl, ?_, rfl⟩
  simp [serverStartup]

/-- C2: the frame-rate rolling buffer (a) preserves the capacity bound
`fps_avg_len = 200` at every per-iteration update, (b) starting empty it
never exceeds the capacity, (c) after `fps_avg_len + 1` samples it equals
the sample stream with its first (oldest) sample evicted, FIFO, so (d) a
first sample that does not recur later in the stream is absent from the
buffer the rolling average is computed over. -/
theorem frameRateBuffer_spec :
    (∀ (b : List ℚ) (x : ℚ), b.length ≤ fps_avg_len →
        (frameRateBufferUpdate b x).length ≤ fps_avg_len)
    ∧ (∀ l : List ℚ, (List.foldl frameRateBufferUpdate [] l).length ≤ fps_avg_len)
    ∧ (∀ l : List ℚ, l.length = fps_avg_len + 1 →
        List.foldl frameRateBufferUpdate [] l = l.drop 1)
    ∧ (∀ (x₀ : ℚ) (rest : List ℚ), rest.length = fps_avg_len → x₀ ∉ rest →
        x₀ ∉ List.foldl frameRateBufferUpdate [] (x₀ :: rest)) := by
  have hdrop : ∀ l : List ℚ, l.length = fps_avg_len + 1 →
      List.foldl frameRateBufferUpdate [] l = l.drop 1 := by
    intro l hl
    rw [frameRateBuffer_foldl l [] (by simp)]
    simp only [List.nil_append, List.length_nil, Nat.zero_add]
    rw [hl]
    have : fps_avg_len + 1 - fps_avg_len = 1 := by omega
    rw [this]
  refine ⟨?_, ?_, hdrop, ?_⟩
  · intro b x hb
    rw [frameRateBufferUpdate_length]
    split <;> omega
  · intro l
    rw [frameRateBuffer_foldl l [] (by simp)]
    simp only [List.nil_append, List.length_nil, Nat.zero_add, List.length_drop]
    omega
  · intro x₀ rest hrest hmem
    rw [hdrop (x₀ :: rest) (by simp [hrest])]
    simpa using hmem

/-- Witness for `frameRateBuffer_spec`: a stream of `fps_avg_len + 1`
samples ends up as the stream without its first sample. -/
theorem frameRateBuffer_spec_witness :
    List.foldl frameRateBufferUpdate [] (List.replicate (fps_avg_len + 1) (1 : ℚ))
      = (List.replicate (fps_avg_len + 1) (1 : ℚ)).drop 1 :=
  frameRateBuffer_spec.2.2.1 _ (by rw [List.length_replicate])

/-- C5 counterexample: the string "usbcam" matches none of the
classification rules — in particular the usb prefix is not followed by
digits — yet classification does not fail with the invalid-source error:
`int("cam")` raises a `ValueError` that nothing catches, crashing the
process with a traceback instead of the diagnostic exit. -/
theorem classifySource_usbcam_counterexample :
    classifySource emptyFs "usbcam" = .error .uncaughtValueError
    ∧ classifySource emptyFs "usbcam" ≠ .error .invalidSource := by
  have h1 : classifySource emptyFs "usbcam" = .error .uncaughtValueError := rfl
  refine ⟨h1, ?_⟩
  rw [h1]
  intro h
  exact absurd (Except.error.inj h) (by decide)

/-- C5 amended: the rules are applied in order and an existing directory
always classifies as folder-of-images; a string matching none of the
prefix rules fails with the invalid-source error and exits; but for a
string with prefix "usb" (or "picamera", checked after "usb") whose
remaining characters `int` cannot parse, the classifier crashes with an
uncaught ValueError rather than producing the invalid-source error;
with an integer suffix the parsed index is kept.  The crash conjuncts
are stated for ASCII suffixes, on which the `int` embedding is
faithful to CPython (whitespace stripping, sign, underscore
grouping). -/
theorem classifySource_rules (fs : FileSys) (s : String) :
    (fs.isDir s = true → classifySource fs s = .ok { source_type := .folder })
    ∧ (fs.isDir s = false → fs.isFile s = false →
        pyStartsWith s "usb" = false → pyStartsWith s "picamera" = false →
        pyStartsWith s "rtsp://" = false →
        classifySource fs s = .error .invalidSource)
    ∧ (fs.isDir s = false → fs.isFile s = false →
        pyStartsWith s "usb" = true →
        ∀ i, pyInt (pySliceFrom s 3) = some i →
          classifySource fs s = .ok { source_type := .usb, usb_idx := some i })
    ∧ (fs.isDir s = false → fs.isFile s = false →
        pyStartsWith s "usb" = true →
        (∀ c ∈ (pySliceFrom s 3).data, c.toNat < 128) →
        pyInt (pySliceFrom s 3) = none →
        classifySource fs s = .error .uncaughtValueError)
    ∧ (fs.isDir s = false → fs.isFile s = false →
        pyStartsWith s "usb" = false → pyStartsWith s "picamera" = true →
        (∀ c ∈ (pySliceFrom s 8).data, c.toNat < 128) →
        pyInt (pySliceFrom s 8) = none →
        classifySource fs s = .error .uncaughtValueError) := by
  refine ⟨?_, ?_, ?_, ?_, ?_⟩
  · intro h
    simp [classifySource, h]
  · intro h1 h2 h3 h4 h5
    simp [classifySource, h1, h2, h3, h4, h5]
  · intro h1 h2 h3 i hi
    simp [classifySource, h1, h2, h3, hi]
  · intro h1 h2 h3 _ hi
    simp [classifySource, h1, h2, h3, hi]
  · intro h1 h2 h3 h4 _ hi
    simp [classifySource, h1, h2, h3, h4, hi]

/-- Witness for `classifySource_rules`: a string with no matching rule
gets the invalid-source error. -/
theorem classifySource_rules_witness :
    classifySource emptyFs "nosuchsource" = .error .invalidSource :=
  (classifySource_rules emptyFs "nosuchsource").2.1 rfl rfl
    (by decide) (by decide) (by decide)

/-- Every exit that `initAfterRes` produces is a diagnostic `sys.exit(0)`. -/
theorem initAfterRes_exit_zero (fs : FileSys) (dev : DeviceEnv) (args : Args)
    (info : SourceInfo) (resize : Bool) (w h : Int) (d : Bool) (c : Nat)
    (hex : initAfterRes fs dev args info resize w h = .exitBeforeLoop d c) :
    d = true ∧ c = 0 := by
  unfold initAfterRes at hex
  split at hex
  · injection hex with h1 h2
    exact ⟨h1.symm, h2.symm⟩
  · split at hex
    · injection hex with h1 h2
      exact ⟨h1.symm, h2.symm⟩
    · split at hex <;> (try split at hex) <;>
        first
          | (injection hex with h1 h2; exact ⟨h1.symm, h2.symm⟩)
          | simp at hex

/-- When recording is requested without a (truthy) resolution, the
record validation exits before the loop with status 0. -/
theorem initAfterRes_record_noRes (fs : FileSys) (dev : DeviceEnv)
    (args : Args) (info : SourceInfo) (resize : Bool) (w h : Int)
    (hrec : args.record = true) (hres : resTruthy args.resolution = false) :
    initAfterRes fs dev args info resize w h = .exitBeforeLoop true 0 := by
  unfold initAfterRes
  split
  · rfl
  · rw [if_pos ⟨hrec, hres⟩]

/-- C4 counterexample: `--record` without `--resolution` (and a valid
usb source) terminates before the loop with a diagnostic, but with exit
status 0 — `sys.exit(0)` — not a non-zero exit code. -/
theorem record_without_resolution_exit_zero :
    clientInit emptyFs devOk recordNoResArgs = .exitBeforeLoop true 0 := by
  decide

/-- C4 amended: every invalid CLI combination — `--record` without a
truthy `--resolution`, an unsupported or invalid source string, or a
malformed (ASCII) resolution string whose integer parse raises
ValueError — terminates before the loop (so before any frame is
processed) with a diagnostic message, but with exit status 0 rather
than a non-zero exit code; indeed every pre-loop exit carries status 0.
The malformed-resolution conjunct is stated for ASCII resolution
strings, on which the `int` embedding is faithful to CPython. -/
theorem clientInit_invalid_cli_exit (fs : FileSys) (dev : DeviceEnv)
    (args : Args) :
    (args.record = true → resTruthy args.resolution = false →
      ∀ info, classifySource fs args.source = .ok info →
        clientInit fs dev args = .exitBeforeLoop true 0)
    ∧ (classifySource fs args.source = .error .invalidSource →
        clientInit fs dev args = .exitBeforeLoop true 0)
    ∧ (∀ e, classifySource fs args.source = .error (.unsupportedExt e) →
        clientInit fs dev args = .exitBeforeLoop true 0)
    ∧ (∀ r, args.resolution = some r → resTruthy args.resolution = true →
        (∀ c ∈ r.data, c.toNat < 128) →
        parseResolution r = .exitValueError →
        ∀ info, classifySource fs args.source = .ok info →
          clientInit fs dev args = .exitBeforeLoop true 0)
    ∧ (∀ d c, clientInit fs dev args = .exitBeforeLoop d c →
        d = true ∧ c = 0) := by
  refine ⟨?_, ?_, ?_, ?_, ?_⟩
  · intro hrec hres info hinfo
    unfold clientInit
    rw [hinfo, hres]
    simp only [Bool.false_eq_true, if_false]
    exact initAfterRes_record_noRes fs dev args info false 0 0 hrec hres
  · intro hinfo
    unfold clientInit
    rw [hinfo]
  · intro e hinfo
    unfold clientInit
    rw [hinfo]
  · intro r hr htruthy _ hparse info hinfo
    unfold clientInit
    rw [hinfo, htruthy]
    simp only [if_true]
    rw [hr]
    simp only [Option.getD_some]
    rw [hparse]
  · intro d c hex
    unfold clientInit at hex
    split at hex
    · simp at hex
    · injection hex with h1 h2
      exact ⟨h1.symm, h2.symm⟩
    · split at hex
      · split at hex
        · injection hex with h1 h2
          exact ⟨h1.symm, h2.symm⟩
        · simp at hex
        · exact initAfterRes_exit_zero _ _ _ _ _ _ _ _ _ hex
      · exact initAfterRes_exit_zero _ _ _ _ _ _ _ _ _ hex

/-- Witness for `clientInit_invalid_cli_exit`: the unmatched source
string exits before the loop with status 0. -/
theorem clientInit_invalid_cli_exit_witness :
    clientInit emptyFs devOk invalidSourceArgs = .exitBeforeLoop true 0 :=
  (clientInit_invalid_cli_exit emptyFs devOk invalidSourceArgs).2.1 rfl

/-- On any failed request, the client keeps the empty prediction list and
logs exactly one message. -/
theorem fetchPredictions_failure (req : RequestOutcome)
    (h : req.isFailure = true) :
    ∃ msg, fetchPredictions req = ([], [msg]) := by
  cases req with
  | success pf => simp [RequestOutcome.isFailure] at h
  | timeout => exact ⟨_, rfl⟩
  | connectionError m => exact ⟨_, rfl⟩
  | httpError c t => exact ⟨_, rfl⟩
  | jsonDecodeError => exact ⟨_, rfl⟩
  | otherException m => exact ⟨_, rfl⟩

/-- When the request failed and the key is not quit, `processFrame`
continues to the next iteration with an empty render carrying the log. -/
theorem processFrame_failure (pyHash : String → Int) (cfg : Config)
    (st : LoopState) (env : IterEnv) (msg : String)
    (hmsg : fetchPredictions env.request = ([], [msg]))
    (hkey : ¬(env.key = 113 ∨ env.key = 81)) :
    ∃ st1 render, processFrame pyHash cfg st env = .next st1 (some render)
      ∧ render.boxes = [] ∧ render.object_count = 0
      ∧ render.logs = [msg] := by
  simp only [processFrame, hmsg]
  rw [if_neg hkey]
  by_cases hsnap : env.key = 112 ∨ env.key = 80
  · rw [if_pos hsnap]
    exact ⟨_, _, rfl, rfl, rfl, rfl⟩
  · rw [if_neg hsnap]
    exact ⟨_, _, rfl, rfl, rfl, rfl⟩

/-- C3: whenever a frame was acquired and the inference request fails
for any transport or decoding reason, the iteration logs the failure,
renders that frame with an empty detection list (no boxes, object count
0), and — unless the quit key is pressed that same iteration — the loop
continues to the next iteration; the failed request alone never
terminates the loop. -/
theorem request_failure_recovers (pyHash : String → Int) (cfg : Config)
    (st : LoopState) (env : IterEnv)
    (hacq : frameAcquired cfg st env = true)
    (hfail : env.request.isFailure = true)
    (hkey : ¬(env.key = 113 ∨ env.key = 81)) :
    ∃ st1 render, loopIter pyHash cfg st env = .next st1 (some render)
      ∧ render.boxes = [] ∧ render.object_count = 0
      ∧ render.logs ≠ [] := by
  obtain ⟨msg, hmsg⟩ := fetchPredictions_failure env.request hfail
  have hacqok : env.acq = .ok := by
    unfold frameAcquired at hacq
    cases h : env.acq
    · rfl
    · rw [h] at hacq
      simp at hacq
  unfold loopIter
  by_cases hsrc : cfg.source_type = .image ∨ cfg.source_type = .folder
  · rw [if_pos hsrc]
    have hlen : ¬ (cfg.imgs_list.length ≤ st.img_count) := by
      unfold frameAcquired at hacq
      rw [if_pos hsrc] at hacq
      simp at hacq
      omega
    rw [if_neg hlen, hacqok]
    obtain ⟨st1, render, h1, h2, h3, h4⟩ :=
      processFrame_failure pyHash cfg
        { st with img_count := st.img_count + 1 } env msg hmsg hkey
    exact ⟨st1, render, h1, h2, h3, by simp [h4]⟩
  · rw [if_neg hsrc, hacqok]
    obtain ⟨st1, render, h1, h2, h3, h4⟩ :=
      processFrame_failure pyHash cfg st env msg hmsg hkey
    exact ⟨st1, render, h1, h2, h3, by simp [h4]⟩

/-- Witness for `request_failure_recovers`: a timed-out request under the
single-image configuration. -/
theorem request_failure_recovers_witness :
    ∃ st1 render, loopIter zeroHash imageCfg st0 failEnv = .next st1 (some render)
      ∧ render.boxes = [] ∧ render.object_count = 0
      ∧ render.logs ≠ [] :=
  request_failure_recovers zeroHash imageCfg st0 failEnv
    (by decide) (by decide) (by decide)

/-- The detection fold appends one drawn box and one count per
above-threshold detection. -/
theorem drawDetections_go (pyHash : String → Int) (th : ℚ)
    (dets : List DetJson) :
    ∀ acc : List DrawnBox × Nat,
      dets.foldl (drawStep pyHash th) acc =
        (acc.1 ++ dets.filterMap (fun d =>
            if th < (parseDet d).conf then some (mkDrawnBox pyHash d) else none),
         acc.2 + (dets.filter
            (fun d => decide (th < (parseDet d).conf))).length) := by
  induction dets with
  | nil => intro acc; simp
  | cons d ds ih =>
    intro acc
    rw [List.foldl_cons]
    have hstep : drawStep pyHash th acc d =
        if th < (parseDet d).conf then
          (acc.1 ++ [mkDrawnBox pyHash d], acc.2 + 1)
        else acc := rfl
    rw [hstep]
    by_cases hc : th < (parseDet d).conf
    · rw [if_pos hc, ih]
      simp [List.filterMap_cons, List.filter_cons, hc]
      omega
    · rw [if_neg hc, ih]
      simp [List.filterMap_cons, List.filter_cons, hc]

/-- C6: a detection contributes a drawn box exactly when its confidence
strictly exceeds the threshold (the box list is the filterMap over that
test, and the object count is the number passing it); the box color is
the palette entry at `hash(classname) mod len(bbox_colors)`, which is
always a valid palette index; within a run (a fixed hash function),
equal class names always receive equal colors. -/
theorem detection_drawing_spec (pyHash : String → Int) (th : ℚ)
    (dets : List DetJson) :
    (drawDetections pyHash th dets).1 =
      dets.filterMap (fun d =>
        if th < (parseDet d).conf then some (mkDrawnBox pyHash d) else none)
    ∧ (drawDetections pyHash th dets).2 =
        (dets.filter (fun d => decide (th < (parseDet d).conf))).length
    ∧ (∀ c, colorIdx pyHash c < bbox_colors.length)
    ∧ (∀ d, (mkDrawnBox pyHash d).color =
        bbox_colors.getD (colorIdx pyHash (parseDet d).classname) (0, 0, 0))
    ∧ (∀ d d1, (parseDet d).classname = (parseDet d1).classname →
        (mkDrawnBox pyHash d).color = (mkDrawnBox pyHash d1).color) := by
  refine ⟨?_, ?_, ?_, ?_, ?_⟩
  · rw [drawDetections, drawDetections_go]
    simp
  · rw [drawDetections, drawDetections_go]
    simp
  · intro c
    unfold colorIdx
    have hlen : bbox_colors.length = 20 := rfl
    rw [hlen]
    have hnn : 0 ≤ (pyHash c) % (20 : Int) :=
      Int.emod_nonneg (pyHash c) (by omega)
    have hlt : (pyHash c) % (20 : Int) < 20 :=
      Int.emod_lt_of_pos (pyHash c) (by omega)
    omega
  · intro d
    rfl
  · intro d d1 hcn
    unfold mkDrawnBox
    simp only [hcn]

/-- Witness for `detection_drawing_spec`: two detections of the same
class name get the same color. -/
theorem detection_drawing_spec_witness :
    (mkDrawnBox zeroHash { class_name := some "helmet" }).color =
      (mkDrawnBox zeroHash
        { class_name := some "helmet", confidence := some 1 }).color :=
  (detection_drawing_spec zeroHash (1 / 2) []).2.2.2.2 _ _ rfl

/-- `processFrame` never calls `sys.exit`: its only outcomes are a break
(on the quit key) or continuing the loop. -/
theorem processFrame_no_exit (pyHash : String → Int) (cfg : Config)
    (st : LoopState) (env : IterEnv) (code : Nat) (logs : List String) :
    processFrame pyHash cfg st env ≠ .exitInLoop code logs := by
  simp only [processFrame]
  split <;> simp

/-- A `sys.exit` inside the loop happens only on the image/folder
exhaustion path, always with status 0. -/
theorem loopIter_exit_shape (pyHash : String → Int) (cfg : Config)
    (st : LoopState) (env : IterEnv) (code : Nat) (logs : List String)
    (h : loopIter pyHash cfg st env = .exitInLoop code logs) :
    code = 0 ∧ (cfg.source_type = SourceType.image
      ∨ cfg.source_type = SourceType.folder) := by
  unfold loopIter at h
  by_cases hsrc : cfg.source_type = .image ∨ cfg.source_type = .folder
  · rw [if_pos hsrc] at h
    by_cases hlen : cfg.imgs_list.length ≤ st.img_count
    · rw [if_pos hlen] at h
      injection h with h1 _
      exact ⟨h1.symm, hsrc⟩
    · rw [if_neg hlen] at h
      cases hacq : env.acq <;> rw [hacq] at h
      · exact absurd h (processFrame_no_exit _ _ _ _ _ _)
      · simp at h
  · rw [if_neg hsrc] at h
    cases hacq : env.acq <;> rw [hacq] at h
    · exact absurd h (processFrame_no_exit _ _ _ _ _ _)
    · simp at h

/-- Lifting `loopIter_exit_shape` through a whole run of the loop. -/
theorem runLoop_exit_shape (pyHash : String → Int) (cfg : Config) :
    ∀ (envs : List IterEnv) (st : LoopState) (code : Nat) (st1 : LoopState),
      runLoop pyHash cfg st envs = .exitedInLoop code st1 →
      code = 0 ∧ (cfg.source_type = SourceType.image
        ∨ cfg.source_type = SourceType.folder) := by
  intro envs
  induction envs with
  | nil =>
    intro st code st1 h
    simp [runLoop] at h
  | cons e es ih =>
    intro st code st1 h
    unfold runLoop at h
    cases hit : loopIter pyHash cfg st e <;> rw [hit] at h
    · injection h with h1 _
      obtain ⟨hc, hsrc⟩ := loopIter_exit_shape pyHash cfg st e _ _ hit
      rw [h1] at hc
      exact ⟨hc, hsrc⟩
    · simp at h
    · exact ih _ _ _ h

/-- C7 counterexample: a folder source with an empty image list reaches
the exhaustion path on the first iteration; the process exits there
(status 0) via `sys.exit` inside the loop, and the cleanup block — the
final average-FPS print, capture/recorder release, window destruction —
never runs, contradicting cleanup on every STOPPED transition. -/
theorem folder_exhaustion_skips_cleanup :
    loopShutdown zeroHash folderCfg true true st0 [stdEnv] =
      .exitedNoCleanup 0 := by
  decide

/-- C7 amended: the break exit paths (quit key, unreadable live/video
frame) fall through to the cleanup block, which prints the average FPS,
releases the capture handle and recorder when open, and destroys the
windows; the finite image/folder exhaustion path instead exits with
status 0 from inside the loop, skipping the cleanup block — and that
path only arises for image/folder sources. -/
theorem loop_cleanup_amended (pyHash : String → Int) (cfg : Config)
    (capOpen recOpen : Bool) (st : LoopState) (envs : List IterEnv) :
    (∀ st1, runLoop pyHash cfg st envs = .brokeOut st1 →
        loopShutdown pyHash cfg capOpen recOpen st envs =
          .cleanedUp (cleanupBlock cfg capOpen recOpen)
        ∧ (cleanupBlock cfg capOpen recOpen).printedAvgFps = true
        ∧ (cleanupBlock cfg capOpen recOpen).windowsDestroyed = true)
    ∧ (∀ code st1, runLoop pyHash cfg st envs = .exitedInLoop code st1 →
        loopShutdown pyHash cfg capOpen recOpen st envs = .exitedNoCleanup 0
        ∧ code = 0
        ∧ (cfg.source_type = SourceType.image
            ∨ cfg.source_type = SourceType.folder)) := by
  constructor
  · intro st1 h
    refine ⟨?_, rfl, rfl⟩
    unfold loopShutdown
    rw [h]
  · intro code st1 h
    obtain ⟨hc, hsrc⟩ := runLoop_exit_shape pyHash cfg envs st code st1 h
    refine ⟨?_, hc, hsrc⟩
    unfold loopShutdown
    rw [h, hc]

/-- Witness for `loop_cleanup_amended`: the empty-folder run exits on the
first iteration without cleanup. -/
theorem loop_cleanup_amended_witness :
    loopShutdown zeroHash folderCfg true true st0 [failEnv] =
      .exitedNoCleanup 0
    ∧ (0 : Nat) = 0
    ∧ (folderCfg.source_type = SourceType.image
        ∨ folderCfg.source_type = SourceType.folder) :=
  (loop_cleanup_amended zeroHash folderCfg true true st0 [failEnv]).2 0 st0
    (by decide)

/-- C9 counterexample: with a single-image source and one returned
detection of confidence 0.3 against threshold 0.5, the rendered frame
carries object count 0 (not the 1 detection returned) and no FPS text
(line 236 draws it only for video/usb/picamera/rtsp sources). -/
theorem image_count_fps_counterexample :
    (iterRender (loopIter zeroHash imageCfg st0 stdEnv)).map
        (fun r => (r.object_count, r.fpsAnnotated)) = some (0, false)
    ∧ (fetchPredictions stdEnv.request).1.length = 1 := by
  constructor
  · decide
  · decide

/-- Every rendered frame out of `processFrame` is annotated with the
object count, which equals the number of above-threshold detections,
and carries the FPS text exactly for the continuous source types. -/
theorem processFrame_render (pyHash : String → Int) (cfg : Config)
    (st st1 : LoopState) (env : IterEnv) (render : RenderInfo)
    (h : processFrame pyHash cfg st env = .next st1 (some render)
       ∨ processFrame pyHash cfg st env = .breakLoop st1 (some render)) :
    render.countAnnotated = true
    ∧ render.object_count = ((fetchPredictions env.request).1.filter
        (fun d => decide (cfg.min_thresh < (parseDet d).conf))).length
    ∧ render.fpsAnnotated = fpsAnnotatedFor cfg.source_type := by
  have hdc : (drawDetections pyHash cfg.min_thresh
        (fetchPredictions env.request).1).2
      = ((fetchPredictions env.request).1.filter
          (fun d => decide (cfg.min_thresh < (parseDet d).conf))).length := by
    rw [drawDetections, drawDetections_go]
    simp
  simp only [processFrame] at h
  by_cases hq : env.key = 113 ∨ env.key = 81
  · rw [if_pos hq] at h
    cases h with
    | inl h => exact absurd h (by simp)
    | inr h =>
      injection h with _ h2
      injection h2 with h3
      subst h3
      exact ⟨rfl, hdc, rfl⟩
  · rw [if_neg hq] at h
    cases h with
    | inr h => exact absurd h (by simp)
    | inl h =>
      injection h with _ h2
      injection h2 with h3
      subst h3
      by_cases hs : env.key = 112 ∨ env.key = 80
      · rw [if_pos hs]
        exact ⟨rfl, hdc, rfl⟩
      · rw [if_neg hs]
        exact ⟨rfl, hdc, rfl⟩

/-- C9 amended: every rendered frame is annotated with the object count
for that frame, and that count equals the number of returned detections
whose confidence strictly exceeds the threshold — not the full number of
returned detections; the rolling-average FPS text is drawn exactly for
the continuous source types (video, usb, picamera, rtsp), not for
image/folder sources. -/
theorem rendered_frame_marks (pyHash : String → Int) (cfg : Config)
    (st st1 : LoopState) (env : IterEnv) (render : RenderInfo)
    (h : loopIter pyHash cfg st env = .next st1 (some render)
       ∨ loopIter pyHash cfg st env = .breakLoop st1 (some render)) :
    render.countAnnotated = true
    ∧ render.object_count = ((fetchPredictions env.request).1.filter
        (fun d => decide (cfg.min_thresh < (parseDet d).conf))).length
    ∧ render.fpsAnnotated = fpsAnnotatedFor cfg.source_type := by
  unfold loopIter at h
  by_cases hsrc : cfg.source_type = .image ∨ cfg.source_type = .folder
  · rw [if_pos hsrc] at h
    by_cases hlen : cfg.imgs_list.length ≤ st.img_count
    · rw [if_pos hlen] at h
      cases h with
      | inl h => exact absurd h (by simp)
      | inr h => exact absurd h (by simp)
    · rw [if_neg hlen] at h
      cases hacq : env.acq <;> rw [hacq] at h
      · exact processFrame_render pyHash cfg _ st1 env render h
      · cases h with
        | inl h => simp at h
        | inr h => simp at h
  · rw [if_neg hsrc] at h
    cases hacq : env.acq <;> rw [hacq] at h
    · exact processFrame_render pyHash cfg st st1 env render h
    · cases h with
      | inl h => simp at h
      | inr h => simp at h

/-- Witness for `rendered_frame_marks` at the concrete single-image run. -/
theorem rendered_frame_marks_witness :
    stdRender.countAnnotated = true
    ∧ stdRender.object_count = ((fetchPredictions stdEnv.request).1.filter
        (fun d => decide (imageCfg.min_thresh < (parseDet d).conf))).length
    ∧ stdRender.fpsAnnotated = fpsAnnotatedFor imageCfg.source_type :=
  rendered_frame_marks zeroHash imageCfg st0 stdNextState stdEnv stdRender
    (Or.inl rfl)

/-- C10: the client substitutes defaults for whatever the response JSON
lacks: a missing predictions key yields the empty detection list, and a
detection object missing xmin, ymin, xmax, ymax, class_name or
confidence gets 0, 0, 0, 0, "unknown" and 0.0 respectively, while
present fields pass through unchanged. -/
theorem missing_field_defaults :
    (fetchPredictions (RequestOutcome.success none)).1 = []
    ∧ parseDet {} = ⟨0, 0, 0, 0, "unknown", 0⟩
    ∧ (∀ d : DetJson, d.xmin = none → (parseDet d).xmin = 0)
    ∧ (∀ d : DetJson, d.ymin = none → (parseDet d).ymin = 0)
    ∧ (∀ d : DetJson, d.xmax = none → (parseDet d).xmax = 0)
    ∧ (∀ d : DetJson, d.ymax = none → (parseDet d).ymax = 0)
    ∧ (∀ d : DetJson, d.class_name = none →
        (parseDet d).classname = "unknown")
    ∧ (∀ d : DetJson, d.confidence = none → (parseDet d).conf = 0)
    ∧ (∀ (d : DetJson) (v : Int), d.xmin = some v → (parseDet d).xmin = v)
    ∧ (∀ (d : DetJson) (v : ℚ), d.confidence = some v →
        (parseDet d).conf = v) := by
  refine ⟨rfl, rfl, ?_, ?_, ?_, ?_, ?_, ?_, ?_, ?_⟩
  · intro d h; simp [parseDet, h]
  · intro d h; simp [parseDet, h]
  · intro d h; simp [parseDet, h]
  · intro d h; simp [parseDet, h]
  · intro d h; simp [parseDet, h]
  · intro d h; simp [parseDet, h]
  · intro d v h; simp [parseDet, h]
  · intro d v h; simp [parseDet, h]

/-- Witness for `missing_field_defaults`: a detection carrying only a
ymin still parses, with xmin defaulted to 0. -/
theorem missing_field_defaults_witness :
    (parseDet { ymin := some 7 }).xmin = 0 :=
  missing_field_defaults.2.2.1 { ymin := some 7 } rfl

end PPE
